import Mathlib

/-!
# Lokutor SDK — verification of the WebSocket client layer

Shallow embedding of the TypeScript SDK's two clients (`VoiceAgentClient`
and `TTSClient`, `src/client.ts`, duplicated in a Node and a browser
variant with identical message logic).  Transport frames, the JSON
envelopes and the clients' dispatch logic are embedded as executable Lean
functions; the WebSocket transport itself is modelled as a stream of
events (`open`, `message`, `error`, `close`) driving a step function, and
promise settlement and callback invocations are recorded in an output
stream.  JSON payloads are modelled at the value level (the platform's
`JSON.parse`/`JSON.stringify` are not code of this repository); a text
frame that fails to parse is the explicit `TextIn.notJson` case.
-/

namespace Lokutor

/-- JSON values, the payloads of text frames (result of `JSON.parse`). -/
inductive Json where
  | null : Json
  | bool (b : Bool) : Json
  | num (q : ℚ) : Json
  | str (s : String) : Json
  | arr (elems : List Json) : Json
  | obj (fields : List (String × Json)) : Json

/-- First binding of a key in a JSON object's field list. -/
def lookupField : List (String × Json) → String → Option Json
  | [], _ => none
  | (k, v) :: rest, key => if k = key then some v else lookupField rest key

/-- JS property access `msg.key`: `none` models `undefined` (missing key
or non-object receiver). -/
def Json.get (j : Json) (key : String) : Option Json :=
  match j with
  | .obj fields => lookupField fields key
  | _ => none

/-- JS truthiness of a property-access result (`if (msg.data)`):
`undefined`, `null`, `false`, `0` and `""` are falsy. -/
def truthy : Option Json → Bool
  | none => false
  | some .null => false
  | some (.bool b) => b
  | some (.num q) => q ≠ 0
  | some (.str s) => s ≠ ""
  | some (.arr _) => true
  | some (.obj _) => true

/-! ## Base64

`base64ToUint8Array` (browser variant, via `atob`) and
`Buffer.from(s, 'base64')` (Node variant) both implement standard RFC 4648
base64 decoding with `=` padding; `encodeBase64` is the canonical encoder
producing the strings the server sends in `{"type":"audio","data":...}`
messages.  Bytes are `Nat`s, meaningful below 256. -/

/-- The base64 alphabet, index 0–63. -/
def base64Alphabet : List Char :=
  "ABCDEFGHIJKLMNOPQRSTUVWXYZabcdefghijklmnopqrstuvwxyz0123456789+/".toList

/-- Character of a 6-bit group. -/
def sixToChar (i : Nat) : Char := base64Alphabet.getD i 'A'

/-- Inverse of `sixToChar` on the alphabet; `none` for foreign characters. -/
def charToSix (c : Char) : Option Nat :=
  (List.range 64).find? (fun i => sixToChar i = c)

/-- Canonical base64 encoding of a byte list, with `=` padding. -/
def encodeBase64Chars : List Nat → List Char
  | [] => []
  | [a] => [sixToChar (a / 4), sixToChar (a % 4 * 16), '=', '=']
  | [a, b] =>
      [sixToChar (a / 4), sixToChar (a % 4 * 16 + b / 16),
       sixToChar (b % 16 * 4), '=']
  | a :: b :: c :: rest =>
      sixToChar (a / 4) :: sixToChar (a % 4 * 16 + b / 16) ::
      sixToChar (b % 16 * 4 + c / 64) :: sixToChar (c % 64) ::
      encodeBase64Chars rest

/-- Base64 encoding as a string. -/
def encodeBase64 (bytes : List Nat) : String :=
  String.mk (encodeBase64Chars bytes)

/-- Base64 decoding of a character list (the behaviour of `atob` /
`Buffer.from(·, 'base64')` on well-formed base64 input; junk input,
which never arises from the server's encoder, decodes to `[]`). -/
def decodeBase64Chars : List Char → List Nat
  | e1 :: e2 :: e3 :: e4 :: rest =>
      match charToSix e1, charToSix e2 with
      | some i1, some i2 =>
          let b1 := i1 * 4 + i2 / 16
          if e3 = '=' then [b1]
          else
            match charToSix e3 with
            | some i3 =>
                let b2 := i2 % 16 * 16 + i3 / 4
                if e4 = '=' then [b1, b2]
                else
                  match charToSix e4 with
                  | some i4 => b1 :: b2 :: (i3 % 4 * 64 + i4) :: decodeBase64Chars rest
                  | none => []
            | none => []
      | _, _ => []
  | _ => []

/-- Base64 decoding of a string. -/
def decodeBase64 (s : String) : List Nat :=
  decodeBase64Chars s.data

/-- Lemma: `charToSix` inverts `sixToChar` on all 64 alphabet indices. -/
theorem charToSix_sixToChar : ∀ i ∈ List.range 64, charToSix (sixToChar i) = some i := by
  decide

/-- No alphabet character is the padding character. -/
theorem sixToChar_ne_eq : ∀ i ∈ List.range 64, sixToChar i ≠ '=' := by
  decide

/-- Decoding inverts encoding on byte lists. -/
theorem decodeBase64Chars_encodeBase64Chars :
    ∀ bytes : List Nat, (∀ b ∈ bytes, b < 256) →
      decodeBase64Chars (encodeBase64Chars bytes) = bytes := by
  intro bytes
  induction bytes using encodeBase64Chars.induct with
  | case1 => intro _; rfl
  | case2 a =>
      intro h
      have ha : a < 256 := h a (by simp)
      have h1 : a / 4 ∈ List.range 64 := by
        simp only [List.mem_range]; omega
      have h2 : a % 4 * 16 ∈ List.range 64 := by
        simp only [List.mem_range]; omega
      simp only [encodeBase64Chars, decodeBase64Chars,
        charToSix_sixToChar _ h1, charToSix_sixToChar _ h2, if_true,
        List.cons.injEq, and_true]
      omega
  | case3 a b =>
      intro h
      have ha : a < 256 := h a (by simp)
      have hb : b < 256 := h b (by simp)
      have h1 : a / 4 ∈ List.range 64 := by
        simp only [List.mem_range]; omega
      have h2 : a % 4 * 16 + b / 16 ∈ List.range 64 := by
        simp only [List.mem_range]; omega
      have h3 : b % 16 * 4 ∈ List.range 64 := by
        simp only [List.mem_range]; omega
      simp only [encodeBase64Chars, decodeBase64Chars,
        charToSix_sixToChar _ h1, charToSix_sixToChar _ h2, charToSix_sixToChar _ h3,
        if_neg (sixToChar_ne_eq _ h3), if_true, List.cons.injEq, and_true]
      omega
  | case4 a b c rest ih =>
      intro h
      have ha : a < 256 := h a (by simp)
      have hb : b < 256 := h b (by simp)
      have hc : c < 256 := h c (by simp)
      have h1 : a / 4 ∈ List.range 64 := by
        simp only [List.mem_range]; omega
      have h2 : a % 4 * 16 + b / 16 ∈ List.range 64 := by
        simp only [List.mem_range]; omega
      have h3 : b % 16 * 4 + c / 64 ∈ List.range 64 := by
        simp only [List.mem_range]; omega
      have h4 : c % 64 ∈ List.range 64 := by
        simp only [List.mem_range]; omega
      have hrest : ∀ x ∈ rest, x < 256 := fun x hx => h x (by simp [hx])
      simp only [encodeBase64Chars, decodeBase64Chars,
        charToSix_sixToChar _ h1, charToSix_sixToChar _ h2,
        charToSix_sixToChar _ h3, charToSix_sixToChar _ h4,
        if_neg (sixToChar_ne_eq _ h3), if_neg (sixToChar_ne_eq _ h4),
        List.cons.injEq]
      exact ⟨by omega, by omega, by omega, ih hrest⟩

/-- String-level round trip. -/
theorem decodeBase64_encodeBase64 (bytes : List Nat) (h : ∀ b ∈ bytes, b < 256) :
    decodeBase64 (encodeBase64 bytes) = bytes := by
  simpa [decodeBase64, encodeBase64] using decodeBase64Chars_encodeBase64Chars bytes h

/-! ## Enumerations (`src/types.ts`) -/

/-- The `VoiceStyle` enum. -/
inductive VoiceStyle where
  | F1 | F2 | F3 | F4 | F5
  | M1 | M2 | M3 | M4 | M5
deriving DecidableEq

/-- The string value of a `VoiceStyle` member. -/
def VoiceStyle.code : VoiceStyle → String
  | .F1 => "F1" | .F2 => "F2" | .F3 => "F3" | .F4 => "F4" | .F5 => "F5"
  | .M1 => "M1" | .M2 => "M2" | .M3 => "M3" | .M4 => "M4" | .M5 => "M5"

/-- The `Language` enum. -/
inductive Language where
  | ENGLISH | SPANISH | FRENCH | PORTUGUESE | KOREAN
deriving DecidableEq

/-- The string value of a `Language` member. -/
def Language.code : Language → String
  | .ENGLISH => "en" | .SPANISH => "es" | .FRENCH => "fr"
  | .PORTUGUESE => "pt" | .KOREAN => "ko"

/-! ## Transport events and observable outputs

A WebSocket delivers a serialized stream of events to the client's
handlers.  Inbound text frames arrive as either a parsed JSON value or
the explicit parse-failure marker `TextIn.notJson` (`JSON.parse` threw).
Outbound frames, callback invocations and promise settlements are
recorded, in program order, in a single output stream. -/

/-- An inbound text frame, after `JSON.parse`. -/
inductive TextIn where
  | notJson : TextIn
  | json (j : Json) : TextIn

/-- Transport events delivered to the registered handlers. -/
inductive WsEvent where
  | evOpen : WsEvent
  | msgBinary (bytes : List Nat) : WsEvent
  | msgText (t : TextIn) : WsEvent
  | evError : WsEvent
  | evClose : WsEvent

/-- An outbound WebSocket frame (`ws.send`). -/
inductive Frame where
  | text (j : Json) : Frame
  | binary (bytes : List Nat) : Frame

/-- An invocation of a caller-supplied callback.  Emitting the event
models calling the corresponding registered callback with that argument;
when the caller registered none, the call is simply skipped, which no
claim distinguishes.  `Option Json` arguments carry `none` for a JS
`undefined` (missing `data` field). -/
inductive CbEvent where
  | transcription (d : Option Json) : CbEvent
  | response (d : Option Json) : CbEvent
  | audio (bytes : List Nat) : CbEvent
  | status (d : Option Json) : CbEvent
  | serverError (d : Option Json) : CbEvent
  | transportError : CbEvent
  | visemes (elems : List Json) : CbEvent

/-- One observable output of the client: an outbound frame, a callback
invocation, or an attempt to settle the pending promise.  A JS promise
settles at most once; later attempts are no-ops, captured by
`firstSettle`.  `resolveP (some true)` is `resolve(true)` (voice agent),
`resolveP none` is `resolve()` (TTS). -/
inductive OutEvt where
  | send (f : Frame) : OutEvt
  | cb (c : CbEvent) : OutEvt
  | resolveP (b : Option Bool) : OutEvt
  | rejectP : OutEvt

/-- The outbound frames within an output stream, in order. -/
def sentFrames : List OutEvt → List Frame
  | [] => []
  | .send f :: rest => f :: sentFrames rest
  | _ :: rest => sentFrames rest

/-- The callback invocations within an output stream, in order. -/
def cbEvents : List OutEvt → List CbEvent
  | [] => []
  | .cb c :: rest => c :: cbEvents rest
  | _ :: rest => cbEvents rest

/-- Outcome of a promise. -/
inductive Settle where
  | resolved (b : Option Bool) : Settle
  | rejected : Settle
deriving DecidableEq

/-- The settlement a JS promise actually takes: the first `resolve` or
`reject` in the output stream wins, later attempts are ignored. -/
def firstSettle : List OutEvt → Option Settle
  | [] => none
  | .resolveP b :: _ => some (.resolved b)
  | .rejectP :: _ => some .rejected
  | _ :: rest => firstSettle rest

/-- Whether a transport-event list contains an `open` event. -/
def hasOpen : List WsEvent → Bool
  | [] => false
  | .evOpen :: _ => true
  | _ :: rest => hasOpen rest

/-- Whether a transport-event list contains an `error` event. -/
def hasError : List WsEvent → Bool
  | [] => false
  | .evError :: _ => true
  | _ :: rest => hasError rest

/-- Whether a transport-event list contains a `close` event. -/
def hasClose : List WsEvent → Bool
  | [] => false
  | .evClose :: _ => true
  | _ :: rest => hasClose rest

/-! ## VoiceAgentClient (`src/client.ts`)

The Node and browser variants differ only in transport plumbing (header
vs query-string authentication, `Buffer` vs `Uint8Array`, `on('...')` vs
`on...` properties); the session logic embedded here is shared verbatim.
The `apiKey`/`serverUrl` fields only shape the URL/headers of the
handshake and never influence any claim, so they are not carried in the
state. -/

/-- Constructor argument of `VoiceAgentClient` (the callback fields of
`LokutorConfig` are modelled by the `CbEvent` output stream). -/
structure AgentConfig where
  prompt : String
  voice : Option VoiceStyle
  language : Option Language

/-- The mutable fields of a `VoiceAgentClient` instance that the session
logic reads: `this.ws !== null`, `this.isConnected`, and the three
configuration values. -/
structure AgentState where
  prompt : String
  voice : VoiceStyle
  language : Language
  wsAlive : Bool
  isConnected : Bool
deriving DecidableEq

namespace VoiceAgentClient

/-- The constructor.  `config.voice || VoiceStyle.F1` and
`config.language || Language.ENGLISH`: every enum member is a non-empty
string, hence truthy, so `||` is exactly default-for-missing. -/
def init (cfg : AgentConfig) : AgentState :=
  { prompt := cfg.prompt
    voice := cfg.voice.getD .F1
    language := cfg.language.getD .ENGLISH
    wsAlive := false
    isConnected := false }

/-- The synchronous body of `connect()`: `this.ws = new WebSocket(...)`
and handler registration.  Unconditional — there is no guard against an
already-used instance. -/
def connectStart (st : AgentState) : AgentState :=
  { st with wsAlive := true }

/-- Method `sendConfig()`: guard `!this.ws || !this.isConnected`, then three
`ws.send(JSON.stringify(...))` calls, prompt, voice, language in order. -/
def sendConfig (st : AgentState) : List OutEvt :=
  if st.wsAlive && st.isConnected then
    [.send (.text (.obj [("type", .str "prompt"), ("data", .str st.prompt)])),
     .send (.text (.obj [("type", .str "voice"), ("data", .str st.voice.code)])),
     .send (.text (.obj [("type", .str "language"), ("data", .str st.language.code)]))]
  else []

/-- Method `sendAudio(audioData)`: `if (this.ws && this.isConnected)
ws.send(audioData, {binary:true})`.  A total function — the drop branch
returns normally, it cannot throw. -/
def sendAudio (st : AgentState) (bytes : List Nat) : List OutEvt :=
  if st.wsAlive && st.isConnected then [.send (.binary bytes)] else []

/-- Method `disconnect()`: `if (this.ws) { this.ws.close(); this.ws = null; }`.
Total — never throws. -/
def disconnect (st : AgentState) : AgentState :=
  if st.wsAlive then { st with wsAlive := false } else st

/-- Method `handleBinaryMessage` / `emit('audio', data)`: deliver the bytes to
`onAudio` callback(s). -/
def handleBinaryMessage (bytes : List Nat) : List OutEvt :=
  [.cb (.audio bytes)]

/-- JS strict equality of a property-access result with a string literal
(`msg.role === 'user'`). -/
def isStr (v : Option Json) (s : String) : Bool :=
  match v with
  | some (.str t) => t = s
  | _ => false

/-- Method `handleTextMessage`: `JSON.parse` inside `try { ... } catch {}`,
then `switch (msg.type)`.  The `audio` case decodes `msg.data` from
base64 when truthy and feeds `handleBinaryMessage`; a truthy non-string
`data` makes the decoder throw (browser `atob` on a non-base64 coercion),
swallowed by the enclosing `catch`.  The `transcript` case splits on
`msg.role === 'user'`.  Unknown or missing `type`, and unparseable text,
fall through with no output. -/
def handleTextMessage (t : TextIn) : List OutEvt :=
  match t with
  | .notJson => []
  | .json msg =>
      if isStr (msg.get "type") "audio" then
        if truthy (msg.get "data") then
          match msg.get "data" with
          | some (.str s) => handleBinaryMessage (decodeBase64 s)
          | _ => []
        else []
      else if isStr (msg.get "type") "transcript" then
        if isStr (msg.get "role") "user" then
          [.cb (.transcription (msg.get "data"))]
        else
          [.cb (.response (msg.get "data"))]
      else if isStr (msg.get "type") "status" then
        [.cb (.status (msg.get "data"))]
      else if isStr (msg.get "type") "error" then
        [.cb (.serverError (msg.get "data"))]
      else []

/-- One transport event, as processed by the handlers `connect()`
registers: `open` sets `isConnected`, pushes the configuration and
resolves the promise with `true`; `message` dispatches on binary-ness;
`error` invokes `onError` and rejects only when not yet connected;
`close` clears `isConnected`. -/
def step (st : AgentState) : WsEvent → AgentState × List OutEvt
  | .evOpen =>
      let st' := { st with isConnected := true }
      (st', sendConfig st' ++ [.resolveP (some true)])
  | .msgBinary bytes => (st, handleBinaryMessage bytes)
  | .msgText t => (st, handleTextMessage t)
  | .evError =>
      (st, [.cb .transportError] ++ if st.isConnected then [] else [.rejectP])
  | .evClose => ({ st with isConnected := false }, [])

/-- Processing a list of transport events in order. -/
def run (st : AgentState) : List WsEvent → AgentState × List OutEvt
  | [] => (st, [])
  | e :: es =>
      let p := step st e
      let q := run p.1 es
      (q.1, p.2 ++ q.2)

end VoiceAgentClient

/-! ## TTSClient (`src/client.ts`)

`synthesize(options)` opens a fresh socket per call and registers
handlers closing over `options`; there is no instance state beyond the
URL/key (which, as above, never influences a claim). -/

/-- The wire-relevant fields of the `synthesize` options record.  JS
`number` fields are modelled as `ℚ` (`NaN`, which is also falsy for
`||`, has no counterpart and never arises from the documented API). -/
structure TTSOptions where
  text : String
  voice : Option VoiceStyle
  language : Option Language
  speed : Option ℚ
  steps : Option ℚ
  visemes : Option Bool

/-- JS `x || d` on an optional number: `undefined` and `0` are falsy. -/
def jsOrNum (v : Option ℚ) (d : ℚ) : ℚ :=
  match v with
  | some q => if q = 0 then d else q
  | none => d

/-- JS `x || d` on an optional boolean: `undefined` and `false` are
falsy. -/
def jsOrBool (v : Option Bool) (d : Bool) : Bool :=
  match v with
  | some b => if b then b else d
  | none => d

namespace TTSClient

/-- The request object built in the `open` handler (`options.voice ||
VoiceStyle.F1` etc.; enum members are non-empty strings, hence truthy,
so for them `||` is default-for-missing). -/
def buildRequest (o : TTSOptions) : Json :=
  .obj [("text", .str o.text),
        ("voice", .str (o.voice.getD .F1).code),
        ("lang", .str (o.language.getD .ENGLISH).code),
        ("speed", .num (jsOrNum o.speed (105 / 100))),
        ("steps", .num (jsOrNum o.steps 24)),
        ("visemes", .bool (jsOrBool o.visemes false))]

/-- One transport event, as processed by the handlers `synthesize`
registers: `open` sends the single JSON request; a binary message goes
to `options.onAudio`; a text message is parsed and forwarded to
`options.onVisemes` only when `Array.isArray(msg)`, all other text
(including parse failures) is ignored; `error` invokes `options.onError`
and rejects unconditionally; `close` resolves. -/
def step (o : TTSOptions) : WsEvent → List OutEvt
  | .evOpen => [.send (.text (buildRequest o))]
  | .msgBinary bytes => [.cb (.audio bytes)]
  | .msgText t =>
      match t with
      | .notJson => []
      | .json (.arr elems) => [.cb (.visemes elems)]
      | .json _ => []
  | .evError => [.cb .transportError, .rejectP]
  | .evClose => [.resolveP none]

/-- Processing a list of transport events in order. -/
def run (o : TTSOptions) (tr : List WsEvent) : List OutEvt :=
  (tr.map (step o)).flatten

end TTSClient

/-- Whether a parsed text message carries one of the four `type` values
the voice-agent `switch` recognizes. -/
def recognizedType (j : Json) : Bool :=
  VoiceAgentClient.isStr (j.get "type") "audio" ||
  VoiceAgentClient.isStr (j.get "type") "transcript" ||
  VoiceAgentClient.isStr (j.get "type") "status" ||
  VoiceAgentClient.isStr (j.get "type") "error"

/-! ## Stream and run lemmas -/

theorem sentFrames_append (xs ys : List OutEvt) :
    sentFrames (xs ++ ys) = sentFrames xs ++ sentFrames ys := by
  induction xs with
  | nil => rfl
  | cons x xs ih => cases x <;> simp [sentFrames, ih]

theorem cbEvents_append (xs ys : List OutEvt) :
    cbEvents (xs ++ ys) = cbEvents xs ++ cbEvents ys := by
  induction xs with
  | nil => rfl
  | cons x xs ih => cases x <;> simp [cbEvents, ih]

theorem firstSettle_append (xs ys : List OutEvt) :
    firstSettle (xs ++ ys) = (firstSettle xs).or (firstSettle ys) := by
  induction xs with
  | nil => rfl
  | cons x xs ih => cases x <;> simp [firstSettle, ih]

namespace VoiceAgentClient

theorem agent_run_append (st : AgentState) (xs ys : List WsEvent) :
    run st (xs ++ ys) =
      ((run (run st xs).1 ys).1, (run st xs).2 ++ (run (run st xs).1 ys).2) := by
  induction xs generalizing st with
  | nil => simp [run]
  | cons e es ih => simp [run, ih]

/-- No transport event changes the configuration fields or the socket
handle; only `open`/`close` touch `isConnected`. -/
theorem agent_step_preserves (st : AgentState) (e : WsEvent) :
    (step st e).1.prompt = st.prompt ∧ (step st e).1.voice = st.voice ∧
    (step st e).1.language = st.language ∧ (step st e).1.wsAlive = st.wsAlive := by
  cases e <;> simp [step]

theorem agent_run_preserves (tr : List WsEvent) :
    ∀ st : AgentState,
      (run st tr).1.prompt = st.prompt ∧ (run st tr).1.voice = st.voice ∧
      (run st tr).1.language = st.language ∧ (run st tr).1.wsAlive = st.wsAlive := by
  induction tr with
  | nil => intro st; exact ⟨rfl, rfl, rfl, rfl⟩
  | cons e es ih =>
      intro st
      obtain ⟨h1, h2, h3, h4⟩ := agent_step_preserves st e
      obtain ⟨g1, g2, g3, g4⟩ := ih (step st e).1
      simp only [run]
      exact ⟨g1.trans h1, g2.trans h2, g3.trans h3, g4.trans h4⟩

/-- Every output of `handleTextMessage` is a callback invocation: it
never sends a frame and never settles a promise. -/
theorem handleTextMessage_cbOnly (t : TextIn) :
    sentFrames (handleTextMessage t) = [] ∧
    firstSettle (handleTextMessage t) = none := by
  cases t with
  | notJson => exact ⟨rfl, rfl⟩
  | json j =>
      unfold handleTextMessage
      repeat' split
      all_goals simp [sentFrames, firstSettle, handleBinaryMessage]

/-- Before any `open` event the client sends nothing, stays
unconnected, and its promise is settled at most by a rejection (a
rejection only when an `error` occurred). -/
theorem agent_run_noOpen (tr : List WsEvent) :
    ∀ st : AgentState, hasOpen tr = false → st.isConnected = false →
      (run st tr).1.isConnected = false ∧
      sentFrames (run st tr).2 = [] ∧
      (hasError tr = false → firstSettle (run st tr).2 = none) ∧
      (firstSettle (run st tr).2 = none ∨ firstSettle (run st tr).2 = some .rejected) := by
  induction tr with
  | nil => intro st _ hC; exact ⟨hC, rfl, fun _ => rfl, .inl rfl⟩
  | cons e es ih =>
      intro st h hC
      cases e with
      | evOpen => simp [hasOpen] at h
      | msgBinary bytes =>
          obtain ⟨g1, g2, g3, g4⟩ := ih st (by simpa [hasOpen] using h) hC
          refine ⟨g1, ?_, fun hE => ?_, ?_⟩
          · simpa [run, step, handleBinaryMessage, sentFrames_append, sentFrames] using g2
          · have := g3 (by simpa [hasError] using hE)
            simpa [run, step, handleBinaryMessage, firstSettle_append, firstSettle] using this
          · rcases g4 with g | g
            · exact .inl (by simpa [run, step, handleBinaryMessage, firstSettle_append,
                firstSettle] using g)
            · exact .inr (by simpa [run, step, handleBinaryMessage, firstSettle_append,
                firstSettle] using g)
      | msgText t =>
          obtain ⟨c1, c2⟩ := handleTextMessage_cbOnly t
          obtain ⟨g1, g2, g3, g4⟩ := ih st (by simpa [hasOpen] using h) hC
          refine ⟨g1, ?_, fun hE => ?_, ?_⟩
          · simpa [run, step, sentFrames_append, c2, c1] using g2
          · have := g3 (by simpa [hasError] using hE)
            simpa [run, step, firstSettle_append, c2] using this
          · rcases g4 with g | g
            · exact .inl (by simpa [run, step, firstSettle_append, c2] using g)
            · exact .inr (by simpa [run, step, firstSettle_append, c2] using g)
      | evError =>
          obtain ⟨g1, g2, g3, g4⟩ := ih st (by simpa [hasOpen] using h) hC
          refine ⟨g1, ?_, fun hE => ?_, ?_⟩
          · simpa [run, step, hC, sentFrames_append, sentFrames] using g2
          · simp [hasError] at hE
          · exact .inr (by simp [run, step, hC, firstSettle_append, firstSettle])
      | evClose =>
          obtain ⟨g1, g2, g3, g4⟩ :=
            ih { st with isConnected := false } (by simpa [hasOpen] using h) rfl
          refine ⟨g1, ?_, fun hE => ?_, ?_⟩
          · simpa [run, step, sentFrames_append, sentFrames] using g2
          · have := g3 (by simpa [hasError] using hE)
            simpa [run, step, firstSettle_append, firstSettle] using this
          · rcases g4 with g | g
            · exact .inl (by simpa [run, step, firstSettle_append, firstSettle] using g)
            · exact .inr (by simpa [run, step, firstSettle_append, firstSettle] using g)

end VoiceAgentClient

namespace TTSClient

theorem tts_run_append (o : TTSOptions) (xs ys : List WsEvent) :
    run o (xs ++ ys) = run o xs ++ run o ys := by
  simp [run]

/-- Only the `open` handler sends; a trace without `open` produces no
outbound frames. -/
theorem tts_run_noOpen_sends (o : TTSOptions) (tr : List WsEvent) (hO : hasOpen tr = false) :
    sentFrames (run o tr) = [] := by
  induction tr with
  | nil => rfl
  | cons e es ih =>
      have hrec : sentFrames (run o es) = [] := by
        cases e <;> simp [hasOpen] at hO <;> exact ih hO
      cases e with
      | evOpen => simp [hasOpen] at hO
      | msgBinary bytes => simpa [run, step, sentFrames] using hrec
      | msgText t =>
          cases t with
          | notJson => simpa [run, step, sentFrames] using hrec
          | json j => cases j <;> simpa [run, step, sentFrames] using hrec
      | evError => simpa [run, step, sentFrames] using hrec
      | evClose => simpa [run, step, sentFrames] using hrec

/-- The promise settles only at `error` or `close`. -/
theorem tts_run_noSettle (o : TTSOptions) (tr : List WsEvent)
    (hE : hasError tr = false) (hC : hasClose tr = false) :
    firstSettle (run o tr) = none := by
  induction tr with
  | nil => rfl
  | cons e es ih =>
      have hrec : firstSettle (run o es) = none := by
        cases e <;> simp [hasError] at hE <;> simp [hasClose] at hC <;> exact ih hE hC
      cases e with
      | evOpen => simpa [run, step, firstSettle] using hrec
      | msgBinary bytes => simpa [run, step, firstSettle] using hrec
      | msgText t =>
          cases t with
          | notJson => simpa [run, step, firstSettle] using hrec
          | json j => cases j <;> simpa [run, step, firstSettle] using hrec
      | evError => simp [hasError] at hE
      | evClose => simp [hasClose] at hC

end TTSClient

/-! ## Claims -/

/-- The `{"type":"prompt","data":...}` configuration frame. -/
def promptFrame (s : String) : Frame :=
  .text (.obj [("type", .str "prompt"), ("data", .str s)])

/-- The `{"type":"voice","data":...}` configuration frame. -/
def voiceFrame (v : VoiceStyle) : Frame :=
  .text (.obj [("type", .str "voice"), ("data", .str v.code)])

/-- The `{"type":"language","data":...}` configuration frame. -/
def languageFrame (l : Language) : Frame :=
  .text (.obj [("type", .str "language"), ("data", .str l.code)])

/-- Claim C1: For every constructor configuration, `connect()` sends, upon
the transport's `open` event, exactly three JSON text frames, in the
fixed order prompt then voice then language, whose `data` values equal
the constructor-supplied (or default `F1` / `en`) values; no other
frame is sent before these three (the frames of the whole run up to and
including the `open` are exactly the three, whatever mix of messages,
errors and closes precedes the `open`). -/
theorem C1_config_push_order (cfg : AgentConfig) (pre : List WsEvent)
    (hpre : hasOpen pre = false) :
    sentFrames (VoiceAgentClient.run
        (VoiceAgentClient.connectStart (VoiceAgentClient.init cfg))
        (pre ++ [.evOpen])).2 =
      [promptFrame cfg.prompt,
       voiceFrame (cfg.voice.getD .F1),
       languageFrame (cfg.language.getD .ENGLISH)] := by
  obtain ⟨hC, hS, -, -⟩ := VoiceAgentClient.agent_run_noOpen pre
    (VoiceAgentClient.connectStart (VoiceAgentClient.init cfg)) hpre rfl
  obtain ⟨hp, hv, hl, hw⟩ := VoiceAgentClient.agent_run_preserves pre
    (VoiceAgentClient.connectStart (VoiceAgentClient.init cfg))
  rw [VoiceAgentClient.agent_run_append, sentFrames_append, hS]
  simp only [VoiceAgentClient.run, VoiceAgentClient.step, List.append_nil,
    VoiceAgentClient.sendConfig]
  rw [hw, hp, hv, hl]
  simp [VoiceAgentClient.connectStart, VoiceAgentClient.init, sentFrames,
    promptFrame, voiceFrame, languageFrame]

/-- Witness for C1 at a concrete configuration and a non-trivial
prefix. -/
theorem C1_config_push_order_witness :
    hasOpen [WsEvent.msgText .notJson, WsEvent.msgBinary [7]] = false ∧
    sentFrames (VoiceAgentClient.run
        (VoiceAgentClient.connectStart
          (VoiceAgentClient.init ⟨"hi", none, none⟩))
        ([WsEvent.msgText .notJson, WsEvent.msgBinary [7]] ++ [.evOpen])).2 =
      [promptFrame "hi", voiceFrame (Option.getD none .F1),
       languageFrame (Option.getD none .ENGLISH)] :=
  ⟨rfl, C1_config_push_order ⟨"hi", none, none⟩
    [WsEvent.msgText .notJson, WsEvent.msgBinary [7]] rfl⟩

/-- Whatever the starting state, a voice-agent run over a trace without
an `open` event sends no frame: only the `open` handler calls
`sendConfig`, and `sendAudio` is a caller-side method, not an event
handler. -/
theorem agent_run_sendsOnlyOnOpen (tr : List WsEvent) :
    ∀ st : AgentState, hasOpen tr = false →
      sentFrames (VoiceAgentClient.run st tr).2 = [] := by
  induction tr with
  | nil => intro st _; rfl
  | cons e es ih =>
      intro st h
      cases e with
      | evOpen => simp [hasOpen] at h
      | msgBinary bytes =>
          have := ih st (by simpa [hasOpen] using h)
          simpa [VoiceAgentClient.run, VoiceAgentClient.step,
            VoiceAgentClient.handleBinaryMessage, sentFrames_append, sentFrames] using this
      | msgText t =>
          obtain ⟨c1, -⟩ := VoiceAgentClient.handleTextMessage_cbOnly t
          have := ih st (by simpa [hasOpen] using h)
          simpa [VoiceAgentClient.run, VoiceAgentClient.step, sentFrames_append, c1] using this
      | evError =>
          have := ih st (by simpa [hasOpen] using h)
          by_cases hC : st.isConnected <;>
            simpa [VoiceAgentClient.run, VoiceAgentClient.step, hC,
              sentFrames_append, sentFrames] using this
      | evClose =>
          have := ih { st with isConnected := false } (by simpa [hasOpen] using h)
          simpa [VoiceAgentClient.run, VoiceAgentClient.step,
            sentFrames_append, sentFrames] using this

/-- Claim C5: `connect()`'s promise resolves to `true` only after the
`open` event fired and the three configuration frames were sent (the
output stream up to the resolution is: nothing sent and nothing settled
during the prefix, then prompt, voice, language, then `resolve(true)`),
the configuration is pushed exactly once — no frame is sent after the
`open` step either — and if an `error` event fires before any `open`
the promise rejects. -/
theorem C5_connect_promise (cfg : AgentConfig) :
    (∀ pre post : List WsEvent,
      hasOpen pre = false → hasError pre = false → hasOpen post = false →
      firstSettle (VoiceAgentClient.run
          (VoiceAgentClient.connectStart (VoiceAgentClient.init cfg)) pre).2 = none ∧
      sentFrames (VoiceAgentClient.run
          (VoiceAgentClient.connectStart (VoiceAgentClient.init cfg)) pre).2 = [] ∧
      (∃ rest : List OutEvt,
        (VoiceAgentClient.run
            (VoiceAgentClient.connectStart (VoiceAgentClient.init cfg))
            (pre ++ .evOpen :: post)).2 =
          (VoiceAgentClient.run
              (VoiceAgentClient.connectStart (VoiceAgentClient.init cfg)) pre).2 ++
            ([.send (promptFrame cfg.prompt),
              .send (voiceFrame (cfg.voice.getD .F1)),
              .send (languageFrame (cfg.language.getD .ENGLISH)),
              .resolveP (some true)] ++ rest) ∧
        sentFrames rest = []) ∧
      firstSettle (VoiceAgentClient.run
          (VoiceAgentClient.connectStart (VoiceAgentClient.init cfg))
          (pre ++ .evOpen :: post)).2 = some (.resolved (some true))) ∧
    (∀ pre rest : List WsEvent, hasOpen pre = false →
      firstSettle (VoiceAgentClient.run
          (VoiceAgentClient.connectStart (VoiceAgentClient.init cfg))
          (pre ++ .evError :: rest)).2 = some .rejected) := by
  constructor
  · intro pre post hpreO hpreE hpostO
    obtain ⟨hC, hS, hsettle, -⟩ := VoiceAgentClient.agent_run_noOpen pre
      (VoiceAgentClient.connectStart (VoiceAgentClient.init cfg)) hpreO rfl
    obtain ⟨hp, hv, hl, hw⟩ := VoiceAgentClient.agent_run_preserves pre
      (VoiceAgentClient.connectStart (VoiceAgentClient.init cfg))
    have hpre0 := hsettle hpreE
    refine ⟨hpre0, hS, ?_⟩
    rw [VoiceAgentClient.agent_run_append]
    set st1 := (VoiceAgentClient.run
      (VoiceAgentClient.connectStart (VoiceAgentClient.init cfg)) pre).1 with hst1
    have hopen : VoiceAgentClient.run st1 (.evOpen :: post) =
        ((VoiceAgentClient.run { st1 with isConnected := true } post).1,
          (VoiceAgentClient.sendConfig { st1 with isConnected := true } ++
            [.resolveP (some true)]) ++
          (VoiceAgentClient.run { st1 with isConnected := true } post).2) := by
      simp [VoiceAgentClient.run, VoiceAgentClient.step]
    have hcfgfrm : VoiceAgentClient.sendConfig { st1 with isConnected := true } =
        [.send (promptFrame cfg.prompt),
         .send (voiceFrame (cfg.voice.getD .F1)),
         .send (languageFrame (cfg.language.getD .ENGLISH))] := by
      unfold VoiceAgentClient.sendConfig
      rw [show ({ st1 with isConnected := true } : AgentState).wsAlive = st1.wsAlive from rfl]
      rw [show ({ st1 with isConnected := true } : AgentState).prompt = st1.prompt from rfl]
      rw [show ({ st1 with isConnected := true } : AgentState).voice = st1.voice from rfl]
      rw [show ({ st1 with isConnected := true } : AgentState).language = st1.language from rfl]
      rw [hw, hp, hv, hl]
      simp [VoiceAgentClient.connectStart, VoiceAgentClient.init,
        promptFrame, voiceFrame, languageFrame]
    have hrest : sentFrames
        (VoiceAgentClient.run { st1 with isConnected := true } post).2 = [] :=
      agent_run_sendsOnlyOnOpen post _ hpostO
    constructor
    · refine ⟨(VoiceAgentClient.run { st1 with isConnected := true } post).2, ?_, hrest⟩
      rw [hopen, hcfgfrm]
      simp
    · rw [hopen, hcfgfrm]
      simp [firstSettle_append, hpre0, firstSettle]
  · intro pre rest hpreO
    obtain ⟨hC, -, -, hor⟩ := VoiceAgentClient.agent_run_noOpen pre
      (VoiceAgentClient.connectStart (VoiceAgentClient.init cfg)) hpreO rfl
    rw [VoiceAgentClient.agent_run_append]
    set st1 := (VoiceAgentClient.run
      (VoiceAgentClient.connectStart (VoiceAgentClient.init cfg)) pre).1 with hst1
    have herr : VoiceAgentClient.run st1 (.evError :: rest) =
        ((VoiceAgentClient.run st1 rest).1,
          ([.cb .transportError] ++ [.rejectP]) ++ (VoiceAgentClient.run st1 rest).2) := by
      simp [VoiceAgentClient.run, VoiceAgentClient.step, hC]
    rw [firstSettle_append, herr]
    rcases hor with h0 | h0 <;> simp [h0, firstSettle_append, firstSettle]

/-- Witness for C5 at a concrete configuration: promise resolved `true`
after an open, rejected when an error precedes any open. -/
theorem C5_connect_promise_witness :
    firstSettle (VoiceAgentClient.run
        (VoiceAgentClient.connectStart (VoiceAgentClient.init ⟨"p", none, none⟩))
        ([] ++ .evOpen :: [])).2 = some (.resolved (some true)) ∧
    firstSettle (VoiceAgentClient.run
        (VoiceAgentClient.connectStart (VoiceAgentClient.init ⟨"p", none, none⟩))
        ([] ++ .evError :: [.evClose])).2 = some .rejected :=
  ⟨(((C5_connect_promise ⟨"p", none, none⟩).1 [] [] rfl rfl rfl).2).2.2,
   (C5_connect_promise ⟨"p", none, none⟩).2 [] [.evClose] rfl⟩

/-- Claim C2, counterexample: The claim says a field the caller supplied is
sent with the supplied value; but `synthesize({text:"hi", speed:0})`
sends `speed = 1.05`, not the supplied `0` — `options.speed || 1.05`
treats the supplied `0` as missing because `0` is JS-falsy. -/
theorem C2_counterexample :
    (TTSClient.buildRequest ⟨"hi", none, none, some 0, none, none⟩).get "speed" =
      some (.num (105 / 100)) ∧ (105 / 100 : ℚ) ≠ 0 := by
  constructor
  · rfl
  · norm_num

/-- Claim C2, amended: The single outbound synthesis request equals the
options with the documented defaults (`voice=F1`, `lang=en`,
`speed=1.05`, `steps=24`, `visemes=false`) substituted for the missing —
or JS-falsy, i.e. zero `speed`/`steps` — fields; a supplied non-zero
number, supplied enum or supplied boolean is sent as supplied; with only
`text` supplied the frame equals
`{"text":<text>,"voice":"F1","lang":"en","speed":1.05,"steps":24,"visemes":false}`. -/
theorem C2_default_substitution (o : TTSOptions) :
    (TTSClient.buildRequest o).get "text" = some (.str o.text) ∧
    (TTSClient.buildRequest o).get "voice" = some (.str (o.voice.getD .F1).code) ∧
    (TTSClient.buildRequest o).get "lang" = some (.str (o.language.getD .ENGLISH).code) ∧
    (o.speed = none ∨ o.speed = some 0 →
      (TTSClient.buildRequest o).get "speed" = some (.num (105 / 100))) ∧
    (∀ q : ℚ, o.speed = some q → q ≠ 0 →
      (TTSClient.buildRequest o).get "speed" = some (.num q)) ∧
    (o.steps = none ∨ o.steps = some 0 →
      (TTSClient.buildRequest o).get "steps" = some (.num 24)) ∧
    (∀ q : ℚ, o.steps = some q → q ≠ 0 →
      (TTSClient.buildRequest o).get "steps" = some (.num q)) ∧
    (TTSClient.buildRequest o).get "visemes" = some (.bool (o.visemes.getD false)) ∧
    (∀ pre post : List WsEvent, hasOpen pre = false → hasOpen post = false →
      sentFrames (TTSClient.run o (pre ++ .evOpen :: post)) =
        [.text (TTSClient.buildRequest o)]) ∧
    TTSClient.buildRequest ⟨o.text, none, none, none, none, none⟩ =
      .obj [("text", .str o.text), ("voice", .str "F1"), ("lang", .str "en"),
            ("speed", .num (105 / 100)), ("steps", .num 24), ("visemes", .bool false)] := by
  refine ⟨rfl, ?_, ?_, ?_, ?_, ?_, ?_, ?_, ?_, rfl⟩
  · simp [TTSClient.buildRequest, Json.get, lookupField]
  · simp [TTSClient.buildRequest, Json.get, lookupField]
  · rintro (h | h) <;>
      simp [TTSClient.buildRequest, Json.get, lookupField, jsOrNum, h]
  · intro q hq hne
    simp [TTSClient.buildRequest, Json.get, lookupField, jsOrNum, hq, hne]
  · rintro (h | h) <;>
      simp [TTSClient.buildRequest, Json.get, lookupField, jsOrNum, h]
  · intro q hq hne
    simp [TTSClient.buildRequest, Json.get, lookupField, jsOrNum, hq, hne]
  · rcases hv : o.visemes with - | b
    · simp [TTSClient.buildRequest, Json.get, lookupField, jsOrBool, hv]
    · cases b <;> simp [TTSClient.buildRequest, Json.get, lookupField, jsOrBool, hv]
  · intro pre post hpre hpost
    rw [TTSClient.tts_run_append, sentFrames_append,
      TTSClient.tts_run_noOpen_sends o pre hpre]
    have : TTSClient.run o (.evOpen :: post) =
        [OutEvt.send (.text (TTSClient.buildRequest o))] ++ TTSClient.run o post := by
      simp [TTSClient.run, TTSClient.step]
    rw [this, sentFrames_append, TTSClient.tts_run_noOpen_sends o post hpost]
    rfl

/-- Witness for C2 at a concrete options record with only `text`
supplied. -/
theorem C2_default_substitution_witness :
    (TTSClient.buildRequest ⟨"yo", none, none, none, none, none⟩).get "speed" =
      some (.num (105 / 100)) ∧
    sentFrames (TTSClient.run ⟨"yo", none, none, none, none, none⟩
        ([] ++ .evOpen :: [])) =
      [.text (TTSClient.buildRequest ⟨"yo", none, none, none, none, none⟩)] := by
  obtain ⟨-, -, -, hsp, -, -, -, -, hsend, -⟩ :=
    C2_default_substitution ⟨"yo", none, none, none, none, none⟩
  exact ⟨hsp (.inl rfl), hsend [] [] rfl rfl⟩

/-- A non-empty byte list has a non-empty base64 encoding. -/
theorem encodeBase64_ne_empty (bs : List Nat) (hne : bs ≠ []) :
    encodeBase64 bs ≠ "" := by
  intro hcon
  have hchars : encodeBase64Chars bs = [] := by
    have := congrArg String.data hcon
    simpa [encodeBase64] using this
  cases bs with
  | nil => exact hne rfl
  | cons a t =>
      cases t with
      | nil => simp [encodeBase64Chars] at hchars
      | cons b t2 =>
          cases t2 with
          | nil => simp [encodeBase64Chars] at hchars
          | cons c r => simp [encodeBase64Chars] at hchars

/-- Claim C3, counterexample: For the empty byte sequence the two routes
are not byte-identical: a native binary frame with no bytes invokes the
audio callback with an empty chunk, while the JSON route
`{"type":"audio","data":""}` (and `""` is the base64 encoding of the
empty sequence) invokes no callback at all, because the empty string is
JS-falsy and fails the `if (msg.data)` guard. -/
theorem C3_counterexample :
    encodeBase64 [] = "" ∧
    (VoiceAgentClient.step (VoiceAgentClient.init ⟨"p", none, none⟩)
        (.msgBinary [])).2 = [.cb (.audio [])] ∧
    (VoiceAgentClient.step (VoiceAgentClient.init ⟨"p", none, none⟩)
        (.msgText (.json (.obj [("type", .str "audio"), ("data", .str "")])))).2 = [] := by
  exact ⟨rfl, rfl, rfl⟩

/-- Claim C3, amended: For every non-empty byte sequence, delivering it
as a native binary frame or as `{"type":"audio","data":<base64 of the
bytes>}` results in the audio callback(s) receiving byte-identical
decoded content; for the empty sequence the JSON route delivers nothing
(see the counterexample). -/
theorem C3_audio_uniformity (bs : List Nat) (st : AgentState)
    (hne : bs ≠ []) (hlt : ∀ b ∈ bs, b < 256) :
    (VoiceAgentClient.step st (.msgBinary bs)).2 = [.cb (.audio bs)] ∧
    (VoiceAgentClient.step st (.msgText (.json
        (.obj [("type", .str "audio"), ("data", .str (encodeBase64 bs))])))).2 =
      [.cb (.audio bs)] := by
  refine ⟨rfl, ?_⟩
  have hns : encodeBase64 bs ≠ "" := encodeBase64_ne_empty bs hne
  simp [VoiceAgentClient.step, VoiceAgentClient.handleTextMessage,
    VoiceAgentClient.isStr, Json.get, lookupField, truthy, hns,
    VoiceAgentClient.handleBinaryMessage, decodeBase64_encodeBase64 bs hlt]

/-- Witness for C3 at the bytes `[1, 2, 255]`. -/
theorem C3_audio_uniformity_witness :
    (VoiceAgentClient.step (VoiceAgentClient.init ⟨"p", none, none⟩)
        (.msgBinary [1, 2, 255])).2 = [.cb (.audio [1, 2, 255])] ∧
    (VoiceAgentClient.step (VoiceAgentClient.init ⟨"p", none, none⟩)
        (.msgText (.json (.obj [("type", .str "audio"),
          ("data", .str (encodeBase64 [1, 2, 255]))])))).2 =
      [.cb (.audio [1, 2, 255])] :=
  C3_audio_uniformity [1, 2, 255] (VoiceAgentClient.init ⟨"p", none, none⟩)
    (by decide) (by decide)

/-- Claim C4, counterexample: The claim says `synthesize`'s promise rejects
on an error event only when the error occurs before any data is
delivered; but on the trace open, binary chunk `[1,2]`, error, close,
the audio callback has received the chunk and the promise still
rejects — the error handler calls `reject(err)` unconditionally. -/
theorem C4_counterexample :
    cbEvents (TTSClient.run ⟨"hi", none, none, none, none, none⟩
        [.evOpen, .msgBinary [1, 2], .evError, .evClose]) =
      [.audio [1, 2], .transportError] ∧
    firstSettle (TTSClient.run ⟨"hi", none, none, none, none, none⟩
        [.evOpen, .msgBinary [1, 2], .evError, .evClose]) = some .rejected := by
  exact ⟨rfl, rfl⟩

/-- Claim C4, amended: The promise returned by `TTSClient.synthesize`
resolves (successfully) when the transport's `close` event fires,
regardless of whether any audio was received, provided no error event
preceded the close; and it rejects on the first error event that
precedes the close, regardless of whether data was already delivered. -/
theorem C4_completion (o : TTSOptions) :
    (∀ pre rest : List WsEvent, hasError pre = false → hasClose pre = false →
      firstSettle (TTSClient.run o (pre ++ .evClose :: rest)) =
        some (.resolved none)) ∧
    (∀ pre rest : List WsEvent, hasError pre = false → hasClose pre = false →
      firstSettle (TTSClient.run o (pre ++ .evError :: rest)) = some .rejected) := by
  constructor
  · intro pre rest hE hC
    rw [TTSClient.tts_run_append, firstSettle_append,
      TTSClient.tts_run_noSettle o pre hE hC]
    have : TTSClient.run o (.evClose :: rest) =
        [OutEvt.resolveP none] ++ TTSClient.run o rest := by
      simp [TTSClient.run, TTSClient.step]
    rw [this]
    rfl
  · intro pre rest hE hC
    rw [TTSClient.tts_run_append, firstSettle_append,
      TTSClient.tts_run_noSettle o pre hE hC]
    have : TTSClient.run o (.evError :: rest) =
        [OutEvt.cb .transportError, OutEvt.rejectP] ++ TTSClient.run o rest := by
      simp [TTSClient.run, TTSClient.step]
    rw [this]
    rfl

/-- Witness for C4: after an open and one audio chunk, a close resolves
and an error rejects. -/
theorem C4_completion_witness :
    firstSettle (TTSClient.run ⟨"w", none, none, none, none, none⟩
        ([.evOpen, .msgBinary [1]] ++ .evClose :: [])) = some (.resolved none) ∧
    firstSettle (TTSClient.run ⟨"w", none, none, none, none, none⟩
        ([.evOpen, .msgBinary [1]] ++ .evError :: [])) = some .rejected :=
  ⟨(C4_completion ⟨"w", none, none, none, none, none⟩).1
      [.evOpen, .msgBinary [1]] [] rfl rfl,
   (C4_completion ⟨"w", none, none, none, none, none⟩).2
      [.evOpen, .msgBinary [1]] [] rfl rfl⟩

/-- Claim C6: `sendAudio` on a client that is not connected — freshly
constructed, connect pending, after `disconnect()`, or after the `close`
event — produces zero outbound frames (and raises nothing: the drop
branch returns normally); if and only if the socket is live and the
session connected, the raw bytes go out as exactly one binary frame. -/
theorem C6_sendAudio_drop (cfg : AgentConfig) (st : AgentState) (bs : List Nat) :
    (VoiceAgentClient.sendAudio st bs = [.send (.binary bs)] ↔
      st.wsAlive = true ∧ st.isConnected = true) ∧
    (¬(st.wsAlive = true ∧ st.isConnected = true) →
      VoiceAgentClient.sendAudio st bs = []) ∧
    VoiceAgentClient.sendAudio (VoiceAgentClient.init cfg) bs = [] ∧
    VoiceAgentClient.sendAudio
      (VoiceAgentClient.connectStart (VoiceAgentClient.init cfg)) bs = [] ∧
    VoiceAgentClient.sendAudio (VoiceAgentClient.disconnect st) bs = [] ∧
    VoiceAgentClient.sendAudio ((VoiceAgentClient.step st .evClose).1) bs = [] := by
  refine ⟨?_, ?_, rfl, rfl, ?_, ?_⟩
  · constructor
    · intro h
      by_cases h1 : st.wsAlive = true
      · by_cases h2 : st.isConnected = true
        · exact ⟨h1, h2⟩
        · simp [VoiceAgentClient.sendAudio, h1, h2] at h
      · simp [VoiceAgentClient.sendAudio, h1] at h
    · rintro ⟨h1, h2⟩
      simp [VoiceAgentClient.sendAudio, h1, h2]
  · intro hcon
    by_cases h1 : st.wsAlive = true
    · by_cases h2 : st.isConnected = true
      · exact absurd ⟨h1, h2⟩ hcon
      · simp [VoiceAgentClient.sendAudio, h1, h2]
    · simp [VoiceAgentClient.sendAudio, h1]
  · unfold VoiceAgentClient.disconnect
    split
    · simp [VoiceAgentClient.sendAudio]
    · next hws =>
        simp only [VoiceAgentClient.sendAudio]
        rw [if_neg]
        simp [hws]
  · simp [VoiceAgentClient.sendAudio, VoiceAgentClient.step]

/-- Witness for C6: a fresh client drops, a live connected state
sends one binary frame. -/
theorem C6_sendAudio_drop_witness :
    VoiceAgentClient.sendAudio (VoiceAgentClient.init ⟨"p", none, none⟩) [9] = [] ∧
    VoiceAgentClient.sendAudio ⟨"p", .F1, .ENGLISH, true, true⟩ [9] =
      [.send (.binary [9])] :=
  ⟨(C6_sendAudio_drop ⟨"p", none, none⟩ (VoiceAgentClient.init ⟨"p", none, none⟩)
      [9]).2.2.1,
   ((C6_sendAudio_drop ⟨"p", none, none⟩ ⟨"p", .F1, .ENGLISH, true, true⟩
      [9]).1).mpr ⟨rfl, rfl⟩⟩

/-- Claim C7: A text frame that is not valid JSON (`JSON.parse` threw,
swallowed by the `catch`), or valid JSON whose `type` is missing or not
one of the four recognized values, produces no callback invocation, no
state change, no outbound frame and no settlement of any pending
promise: the step returns the state unchanged with an empty output
stream. -/
theorem C7_malformed_tolerance (st : AgentState) (j : Json)
    (hj : recognizedType j = false) :
    VoiceAgentClient.step st (.msgText .notJson) = (st, []) ∧
    VoiceAgentClient.step st (.msgText (.json j)) = (st, []) := by
  refine ⟨rfl, ?_⟩
  simp only [recognizedType, Bool.or_eq_false_iff] at hj
  obtain ⟨⟨⟨h1, h2⟩, h3⟩, h4⟩ := hj
  simp [VoiceAgentClient.step, VoiceAgentClient.handleTextMessage, h1, h2, h3, h4]

/-- Witness for C7 at `{"type":"bogus"}`. -/
theorem C7_malformed_tolerance_witness :
    recognizedType (.obj [("type", .str "bogus")]) = false ∧
    VoiceAgentClient.step (VoiceAgentClient.init ⟨"p", none, none⟩)
        (.msgText (.json (.obj [("type", .str "bogus")]))) =
      (VoiceAgentClient.init ⟨"p", none, none⟩, []) :=
  ⟨rfl, (C7_malformed_tolerance (VoiceAgentClient.init ⟨"p", none, none⟩)
      (.obj [("type", .str "bogus")]) rfl).2⟩

/-- Helper: `disconnect()` always leaves the socket handle cleared, whatever
branch ran. -/
theorem disconnect_eq (st : AgentState) :
    VoiceAgentClient.disconnect st = { st with wsAlive := false } := by
  unfold VoiceAgentClient.disconnect
  split
  · rfl
  · next h => cases st; simp_all

/-- Claim C8, counterexample: The claim says a disconnected client is
terminal and a subsequent `connect()` cannot start a new session; but
`connect()` unconditionally creates a fresh socket (`this.ws = new
WebSocket(...)`), so after connect, open, `disconnect()` and the old
socket's close event, a second `connect()` followed by `open` pushes
the configuration again and resolves `true` — a full new session. -/
theorem C8_counterexample :
    sentFrames (VoiceAgentClient.run
        (VoiceAgentClient.connectStart
          ((VoiceAgentClient.step
            (VoiceAgentClient.disconnect
              ((VoiceAgentClient.run
                (VoiceAgentClient.connectStart (VoiceAgentClient.init ⟨"p", none, none⟩))
                [.evOpen]).1))
            .evClose).1))
        [.evOpen]).2 =
      [promptFrame "p", voiceFrame .F1, languageFrame .ENGLISH] ∧
    firstSettle (VoiceAgentClient.run
        (VoiceAgentClient.connectStart
          ((VoiceAgentClient.step
            (VoiceAgentClient.disconnect
              ((VoiceAgentClient.run
                (VoiceAgentClient.connectStart (VoiceAgentClient.init ⟨"p", none, none⟩))
                [.evOpen]).1))
            .evClose).1))
        [.evOpen]).2 = some (.resolved (some true)) := by
  exact ⟨rfl, rfl⟩

/-- Claim C8, amended: `VoiceAgentClient.disconnect()` is idempotent:
calling it twice in succession, or before ever connecting, does not
raise and leaves the socket handle cleared; however the state is not
terminal — a subsequent `connect()` on the same instance creates a
fresh socket and, on its `open`, starts a new session (configuration
pushed again, promise resolved `true`). -/
theorem C8_disconnect_idempotent (cfg : AgentConfig) (st : AgentState) :
    VoiceAgentClient.disconnect (VoiceAgentClient.disconnect st) =
      VoiceAgentClient.disconnect st ∧
    VoiceAgentClient.disconnect (VoiceAgentClient.init cfg) =
      VoiceAgentClient.init cfg ∧
    (VoiceAgentClient.disconnect st).wsAlive = false ∧
    sentFrames (VoiceAgentClient.run
        (VoiceAgentClient.connectStart (VoiceAgentClient.disconnect st))
        [.evOpen]).2 =
      [promptFrame st.prompt, voiceFrame st.voice, languageFrame st.language] ∧
    firstSettle (VoiceAgentClient.run
        (VoiceAgentClient.connectStart (VoiceAgentClient.disconnect st))
        [.evOpen]).2 = some (.resolved (some true)) := by
  refine ⟨?_, ?_, ?_, ?_, ?_⟩
  · simp [disconnect_eq]
  · rw [disconnect_eq]
    rfl
  · rw [disconnect_eq]
  · rw [disconnect_eq]
    simp [VoiceAgentClient.run, VoiceAgentClient.step, VoiceAgentClient.sendConfig,
      VoiceAgentClient.connectStart, sentFrames, promptFrame, voiceFrame, languageFrame]
  · rw [disconnect_eq]
    simp [VoiceAgentClient.run, VoiceAgentClient.step, VoiceAgentClient.sendConfig,
      VoiceAgentClient.connectStart, firstSettle]

/-- Witness for C8 at a concrete state with a live, connected socket. -/
theorem C8_disconnect_idempotent_witness :
    VoiceAgentClient.disconnect
        (VoiceAgentClient.disconnect ⟨"p", .F2, .KOREAN, true, true⟩) =
      VoiceAgentClient.disconnect ⟨"p", .F2, .KOREAN, true, true⟩ ∧
    sentFrames (VoiceAgentClient.run
        (VoiceAgentClient.connectStart
          (VoiceAgentClient.disconnect ⟨"p", .F2, .KOREAN, true, true⟩))
        [.evOpen]).2 =
      [promptFrame "p", voiceFrame .F2, languageFrame .KOREAN] :=
  ⟨(C8_disconnect_idempotent ⟨"p", none, none⟩ ⟨"p", .F2, .KOREAN, true, true⟩).1,
   (C8_disconnect_idempotent ⟨"p", none, none⟩ ⟨"p", .F2, .KOREAN, true, true⟩).2.2.2.1⟩

/-- Claim C9, counterexample: The claim says a well-formed
`{"type":"error","data":...}` text message is surfaced via the error
callback in either session type; but the TTS message handler forwards a
parsed text frame only when `Array.isArray(msg)` holds, so in a TTS
session the error object produces no callback at all — it is silently
ignored, not surfaced. -/
theorem C9_counterexample :
    TTSClient.step ⟨"hi", none, none, none, none, none⟩
        (.msgText (.json (.obj [("type", .str "error"), ("data", .str "boom")]))) =
      [] := by
  exact rfl

/-- Claim C9, amended: In a voice-agent session a well-formed
`{"type":"error","data":...}` text message is surfaced via the
registered error callback and does not by itself change any state,
close the session, or settle any pending completion; in a TTS session
any JSON-object text message — including a well-formed error message —
is silently ignored (no callback, no settlement, no state effect). -/
theorem C9_server_error (st : AgentState) (j : Json) (o : TTSOptions)
    (fields : List (String × Json)) (hj : j.get "type" = some (.str "error")) :
    VoiceAgentClient.step st (.msgText (.json j)) =
      (st, [.cb (.serverError (j.get "data"))]) ∧
    TTSClient.step o (.msgText (.json (.obj fields))) = [] := by
  refine ⟨?_, rfl⟩
  simp [VoiceAgentClient.step, VoiceAgentClient.handleTextMessage, hj,
    VoiceAgentClient.isStr]

/-- Witness for C9 at `{"type":"error","data":"boom"}`. -/
theorem C9_server_error_witness :
    (Json.obj [("type", .str "error"), ("data", .str "boom")]).get "type" =
      some (.str "error") ∧
    VoiceAgentClient.step (VoiceAgentClient.init ⟨"p", none, none⟩)
        (.msgText (.json (.obj [("type", .str "error"), ("data", .str "boom")]))) =
      (VoiceAgentClient.init ⟨"p", none, none⟩,
        [.cb (.serverError (some (.str "boom")))]) :=
  ⟨rfl, (C9_server_error (VoiceAgentClient.init ⟨"p", none, none⟩)
      (.obj [("type", .str "error"), ("data", .str "boom")])
      ⟨"x", none, none, none, none, none⟩ [] rfl).1⟩

/-- Claim C10: For every inbound transcript message the user-transcription
callback is invoked exactly when the `role` field is the string
`"user"` (strict equality); any other `role` — the string `"agent"`, a
missing field, any non-string or unrecognized value — routes the `data`
to the agent-response callback. -/
theorem C10_transcript_routing (st : AgentState) (j : Json)
    (hj : j.get "type" = some (.str "transcript")) :
    (VoiceAgentClient.isStr (j.get "role") "user" = true →
      VoiceAgentClient.step st (.msgText (.json j)) =
        (st, [.cb (.transcription (j.get "data"))])) ∧
    (VoiceAgentClient.isStr (j.get "role") "user" = false →
      VoiceAgentClient.step st (.msgText (.json j)) =
        (st, [.cb (.response (j.get "data"))])) := by
  have hstr : ∀ t s : String,
      VoiceAgentClient.isStr (some (.str t)) s = decide (t = s) := fun _ _ => rfl
  constructor
  · intro hrole
    simp [VoiceAgentClient.step, VoiceAgentClient.handleTextMessage, hj, hstr, hrole]
  · intro hrole
    simp [VoiceAgentClient.step, VoiceAgentClient.handleTextMessage, hj, hstr, hrole]

/-- Witness for C10: a `role:"user"` transcript reaches the
transcription callback, a `role:"agent"` one and a role-less one reach
the response callback. -/
theorem C10_transcript_routing_witness :
    VoiceAgentClient.step (VoiceAgentClient.init ⟨"p", none, none⟩)
        (.msgText (.json (.obj [("type", .str "transcript"), ("role", .str "user"),
          ("data", .str "hello")]))) =
      (VoiceAgentClient.init ⟨"p", none, none⟩,
        [.cb (.transcription (some (.str "hello")))]) ∧
    VoiceAgentClient.step (VoiceAgentClient.init ⟨"p", none, none⟩)
        (.msgText (.json (.obj [("type", .str "transcript"), ("role", .str "agent"),
          ("data", .str "hi there")]))) =
      (VoiceAgentClient.init ⟨"p", none, none⟩,
        [.cb (.response (some (.str "hi there")))]) ∧
    VoiceAgentClient.step (VoiceAgentClient.init ⟨"p", none, none⟩)
        (.msgText (.json (.obj [("type", .str "transcript"),
          ("data", .str "no role")]))) =
      (VoiceAgentClient.init ⟨"p", none, none⟩,
        [.cb (.response (some (.str "no role")))]) :=
  ⟨(C10_transcript_routing (VoiceAgentClient.init ⟨"p", none, none⟩)
      (.obj [("type", .str "transcript"), ("role", .str "user"),
        ("data", .str "hello")]) rfl).1 rfl,
   (C10_transcript_routing (VoiceAgentClient.init ⟨"p", none, none⟩)
      (.obj [("type", .str "transcript"), ("role", .str "agent"),
        ("data", .str "hi there")]) rfl).2 rfl,
   (C10_transcript_routing (VoiceAgentClient.init ⟨"p", none, none⟩)
      (.obj [("type", .str "transcript"), ("data", .str "no role")]) rfl).2 rfl⟩

end Lokutor
